import Mathlib

/-! Verification development for an in-memory dungeon-crawl world server
(`tools/llm_tools_server.py`, `tools/dnd_tools.py`).  The Python modules are
shallowly embedded: every operation becomes a pure function threading an
explicit `World` state, Python exceptions become `Except String` results
paired with the state as it stands when the exception escapes, and Python
dicts become association lists (assignment is modelled as a prepend; lookups
take the most recent binding, which matches dict observation order for the
operations used here).

Randomness is modelled abstractly: `random.Random(seed)` is an infinite
stream of natural-number draws determined by the seed, and the SHA-256 seed
derivation is an uninterpreted hash parameter.  Both live in `Env`, over
which every theorem quantifies, so the proved properties hold for every
hash function and every PRNG; floating-point draws `random.random() < p`
are discretised as a draw modulo 1000 compared against the threshold in
permille (the claims proved below are independent of the threshold value).
Wall-clock timestamps on events are omitted (real time is outside the
embedding); event payloads are rendered as key/value string pairs.
String helpers are re-implemented over the character list of a `String` so
that every definition is total and kernel-evaluable.
-/

/-- Python `str.lower()` restricted to ASCII case mapping. -/
def pyLower (s : String) : String :=
  String.mk (s.data.map Char.toLower)

/-- Python `str.strip()`: drop leading and trailing whitespace. -/
def pyStrip (s : String) : String :=
  String.mk (((s.data.dropWhile Char.isWhitespace).reverse.dropWhile Char.isWhitespace).reverse)

/-- Python `str.replace(a, b)` for single-character patterns. -/
def replaceChar (a b : Char) (s : String) : String :=
  String.mk (s.data.map (fun c => if c = a then b else c))

/-- One step of Python `str.title()`: the accumulator tracks whether the
previous character was alphabetic. -/
def titleStep (st : Bool × List Char) (c : Char) : Bool × List Char :=
  if c.isAlpha then
    (true, (if st.1 then c.toLower else c.toUpper) :: st.2)
  else
    (false, c :: st.2)

/-- Python `str.title()`: capitalise the first letter of every maximal
alphabetic run, lowercase the rest. -/
def titleCase (s : String) : String :=
  String.mk ((s.data.foldl titleStep (false, [])).2.reverse)

/-- Python `str.isdigit()` (ASCII digits). -/
def pyIsDigit (s : String) : Bool :=
  s ≠ "" && s.data.all Char.isDigit

/-- Python `int(...)` on an all-digit string. -/
def digitsToNat (s : String) : Nat :=
  s.data.foldl (fun a c => a * 10 + (c.toNat - 48)) 0

/-- Python `c in s` for a single character. -/
def pyContainsChar (s : String) (c : Char) : Bool :=
  s.data.contains c

/-- Python `s.split(c, 1)`: split at the first occurrence of `c`. -/
def splitOnceChar (c : Char) : List Char → Option (List Char × List Char)
  | [] => none
  | x :: xs =>
    if x = c then some ([], xs)
    else
      match splitOnceChar c xs with
      | none => none
      | some p => some (x :: p.1, p.2)

/-- Python `s.startswith(c)` for a one-character needle. -/
def pyStartsWithChar (s : String) (c : Char) : Bool :=
  match s.data with
  | [] => false
  | x :: _ => x = c

/-- Python `"sep".join(parts)`. -/
def joinSep (sep : String) : List String → String
  | [] => ""
  | [x] => x
  | x :: xs => x ++ sep ++ joinSep sep xs

/-- Python `l[-n:]`: the trailing window of length at most `n`. -/
def lastN {α : Type} (l : List α) (n : Nat) : List α :=
  l.drop (l.length - n)

/-- Association-list lookup, modelling Python dict indexing. -/
def alistLookup {β : Type} : List (String × β) → String → Option β
  | [], _ => none
  | (k, v) :: rest, key => if k = key then some v else alistLookup rest key

/-- Association-list update, modelling Python dict assignment: the new
binding shadows any previous one. -/
def alistSet {β : Type} (l : List (String × β)) (k : String) (v : β) :
    List (String × β) :=
  (k, v) :: l

/-- Abstract PRNG: an infinite stream of natural-number draws.  Models a
`random.Random` instance; each primitive below consumes exactly one draw. -/
structure RNG where
  stream : Nat → Nat

/-- Consume one draw. -/
def rngNext (r : RNG) : Nat × RNG :=
  (r.stream 0, ⟨fun n => r.stream (n + 1)⟩)

/-- `rng.choice(xs)`: pick an element by a draw modulo the length. -/
def rngChoice (r : RNG) (xs : List String) : String × RNG :=
  let v := rngNext r
  (xs.getD (v.1 % xs.length) "", v.2)

/-- `rng.randint(a, b)`: uniform on the inclusive range `[a, b]`. -/
def rngRandint (r : RNG) (a b : Nat) : Nat × RNG :=
  let v := rngNext r
  (a + v.1 % (b - a + 1), v.2)

/-- `rng.random()` discretised: a value in `[0, 1000)` standing for the
unit interval in permille; `rng.random() < p` becomes a comparison with
`p * 1000`. -/
def rngRandFloat (r : RNG) : Nat × RNG :=
  let v := rngNext r
  (v.1 % 1000, v.2)

/-- The ambient generation environment: `hashSeed` models
`int(hashlib.sha256(key).hexdigest()[:16], 16)` and `seedRNG` models
`random.Random(seed)`.  All theorems quantify over it. -/
structure Env where
  hashSeed : String → Nat
  seedRNG : Nat → RNG

/-- An integer coordinate triple. -/
structure Pos where
  x : Int
  y : Int
  z : Int
deriving DecidableEq

/-- A tile entity record; `name` is only present for spawned NPCs. -/
structure Entity where
  id : String
  kind : String
  disposition : String
  name : Option String
deriving DecidableEq

/-- A tile item record. -/
structure Item where
  id : String
  kind : String
deriving DecidableEq

/-- The `tile` sub-dictionary of a generated tile. -/
structure TileContent where
  biome : String
  lighting : String
  entities : List Entity
  items : List Item
  exits : List String
  hazards : List String
deriving DecidableEq

/-- A generated tile as cached by the session: seed, content and the
derived salient-fact lines. -/
structure Tile where
  seed : Nat
  tile : TileContent
  salient_facts : List String
deriving DecidableEq

/-- A log event.  The wall-clock `ts` field of the source is omitted (real
time is outside the embedding); payloads are key/value string pairs. -/
structure Event where
  event_id : Nat
  type : String
  payload : List (String × String)
deriving DecidableEq

/-- A spawned NPC record. -/
structure Npc where
  id : String
  name : String
  kind : String
  armor_class : Nat
  position : Pos
  disposition : String
deriving DecidableEq

/-- Per-session world state (the dict built by `_new_session`). -/
structure Session where
  session_id : String
  position : Pos
  heading : String
  turn : Nat
  tiles : List (String × Tile)
  events : List Event
  journal : List String
  npcs : List (String × Npc)
  theme : String
  tone : String
  max_narrative_words : Nat
deriving DecidableEq

/-- The public snapshot built by `_public_tile_payload`; `event_id` is
populated only by `move`. -/
structure TilePayload where
  turn : Nat
  position : Pos
  tile : TileContent
  salient_facts : List String
  exits : List String
  heading : String
  session_id : String
  max_narrative_words : Nat
  event_id : Option Nat
deriving DecidableEq

/-- Process-wide state: the session registry, the active-session pointer
and the global monotonic event-id counter. -/
structure World where
  sessions : List (String × Session)
  active : Option String
  nextEventId : Nat
deriving DecidableEq

/-- Directions with movement deltas (`_DELTAS`); the default `(0,0,0)` of
`dict.get` is the wildcard case. -/
def deltas : String → Pos
  | "north" => ⟨0, 1, 0⟩
  | "south" => ⟨0, -1, 0⟩
  | "east" => ⟨1, 0, 0⟩
  | "west" => ⟨-1, 0, 0⟩
  | "up" => ⟨0, 0, 1⟩
  | "down" => ⟨0, 0, -1⟩
  | _ => ⟨0, 0, 0⟩

/-- `_BASE_DIRECTIONS`. -/
def BASE_DIRECTIONS : List String := ["north", "south", "east", "west", "up", "down"]

/-- `_DIR_ALIASES`. -/
def DIR_ALIASES : List (String × String) :=
  [("n", "north"), ("s", "south"), ("e", "east"), ("w", "west"), ("u", "up"), ("d", "down")]

/-- The heading-relative tokens accepted by `_normalize_direction`. -/
def RELATIVE_TOKENS : List String :=
  ["forward", "ahead", "back", "backward", "reverse", "left", "right"]

/-- `_TURN_JOURNAL_ROLLUP_INTERVAL`. -/
def TURN_JOURNAL_ROLLUP_INTERVAL : Nat := 8

/-- `_JOURNAL_MAX_ENTRIES`. -/
def JOURNAL_MAX_ENTRIES : Nat := 32

/-- The ValueError message raised when no session can be resolved. -/
def noActiveSessionMsg : String :=
  "No active session. Call start_session() or pass session_id explicitly."

/-- The ValueError message raised by `_normalize_direction` on an unknown
token (quote marks of the source text omitted). -/
def unknownDirectionMsg : String :=
  "Unknown direction. Use north/south/east/west/up/down or forward/back/left/right."

/-- `_coord_key`. -/
def coordKey (x y z : Int) : String :=
  toString x ++ "," ++ toString y ++ "," ++ toString z

/-- The string hashed by `_seed_for_tile`. -/
def seedKey (sessionId : String) (x y z : Int) : String :=
  sessionId ++ ":" ++ coordKey x y z

/-- `_seed_for_tile`: the 64-bit seed derived from the session identity and
the coordinate (the hash itself is the `Env` parameter). -/
def seedForTile (env : Env) (sessionId : String) (x y z : Int) : Nat :=
  env.hashSeed (seedKey sessionId x y z)

/-- The biome pool of `_generate_tile`. -/
def BIOMES : List String :=
  ["ruined_keep", "crypt", "cavern", "armory", "library", "underground_river"]

/-- Entity generation step of `_generate_tile`: a presence draw at
probability 0.5, then kind, disposition and an id suffix. -/
def genEntities (r : RNG) : List Entity × RNG :=
  let f := rngRandFloat r
  if f.1 < 500 then
    let ck := rngChoice f.2 ["goblin", "skeleton", "bat", "kobold", "slime"]
    let cd := rngChoice ck.2 ["hostile", "wary", "indifferent"]
    let ri := rngRandint cd.2 10 999
    ([{ id := "e_" ++ ck.1 ++ "_" ++ toString ri.1, kind := ck.1,
        disposition := cd.1, name := none }], ri.2)
  else ([], f.2)

/-- Item generation step of `_generate_tile`. -/
def genItems (r : RNG) : List Item × RNG :=
  let f := rngRandFloat r
  if f.1 < 500 then
    let ck := rngChoice f.2 ["scroll", "rusty_blade", "torch", "amulet", "potion"]
    let ri := rngRandint ck.2 10 999
    ([{ id := "it_" ++ ck.1 ++ "_" ++ toString ri.1, kind := ck.1 }], ri.2)
  else ([], f.2)

/-- The four independent per-direction exit draws of `_generate_tile`, in
the list-comprehension order north, east, south, west, each included at
probability 0.7. -/
def genExitsDraws (r : RNG) : List String × RNG :=
  let e1 := rngRandFloat r
  let e2 := rngRandFloat e1.2
  let e3 := rngRandFloat e2.2
  let e4 := rngRandFloat e3.2
  ((if e1.1 < 700 then ["north"] else []) ++ (if e2.1 < 700 then ["east"] else []) ++
   (if e3.1 < 700 then ["south"] else []) ++ (if e4.1 < 700 then ["west"] else []), e4.2)

/-- Exit generation step of `_generate_tile`: the four independent draws;
if all of them exclude, one direction is forced in uniformly. -/
def genExits (r : RNG) : List String × RNG :=
  let d := genExitsDraws r
  if d.1 = [] then
    let c := rngChoice d.2 ["north", "east", "south", "west"]
    ([c.1], c.2)
  else d

/-- Hazard generation step of `_generate_tile` (probability 0.3). -/
def genHazards (r : RNG) : List String × RNG :=
  let f := rngRandFloat r
  if f.1 < 300 then
    let ch := rngChoice f.2 ["loose_stones", "slick_moss", "unstable_beam"]
    ([ch.1], ch.2)
  else ([], f.2)

/-- The salient-fact lines of `_generate_tile`. -/
def salientFactsOf (biome lighting : String) (entities : List Entity)
    (items : List Item) (hazards : List String) : List String :=
  [titleCase (replaceChar '_' ' ' lighting) ++ " " ++ replaceChar '_' ' ' biome] ++
  (match entities with
   | e :: _ => [titleCase e.kind ++ " is " ++ e.disposition]
   | [] => []) ++
  (match items with
   | i :: _ => ["Notable item: " ++ replaceChar '_' ' ' i.kind]
   | [] => []) ++
  (match hazards with
   | h :: _ => ["Hazard: " ++ replaceChar '_' ' ' h]
   | [] => [])

/-- Body of `_generate_tile` once the seed is fixed: all draws come from
the PRNG seeded with that value, consumed in the fixed source order
(biome, lighting, entities, items, exits, hazards). -/
def generateTileFromSeed (env : Env) (seed : Nat) : Tile :=
  let r0 := env.seedRNG seed
  let cb := rngChoice r0 BIOMES
  let biome := cb.1
  let cl := rngChoice cb.2 ["dark", "dim", "torchlit", "glimmering"]
  let lighting := cl.1
  let ge := genEntities cl.2
  let entities := ge.1
  let gi := genItems ge.2
  let items := gi.1
  let gx := genExits gi.2
  let exits := gx.1
  let gh := genHazards gx.2
  let hazards := gh.1
  { seed := seed,
    tile := { biome := biome, lighting := lighting, entities := entities,
              items := items, exits := exits, hazards := hazards },
    salient_facts := salientFactsOf biome lighting entities items hazards }

/-- `_generate_tile` as a function of a cache key: the coordinate enters
the generation only through `coordKey`, so equal keys give equal tiles. -/
def tileForKey (env : Env) (sessionId : String) (k : String) : Tile :=
  generateTileFromSeed env (env.hashSeed (sessionId ++ ":" ++ k))

/-- `_generate_tile`. -/
def generateTile (env : Env) (sessionId : String) (x y z : Int) : Tile :=
  generateTileFromSeed env (seedForTile env sessionId x y z)

/-- `_ensure_tile`: return the cached tile for the coordinate, generating
and caching it on a miss. -/
def ensureTile (env : Env) (s : Session) (x y z : Int) : Tile × Session :=
  match alistLookup s.tiles (coordKey x y z) with
  | some t => (t, s)
  | none =>
    let t := generateTile env s.session_id x y z
    (t, { s with tiles := alistSet s.tiles (coordKey x y z) t })

/-- The tile cache is consistent when every cached entry is exactly what
`_generate_tile` produces for its key. -/
def cacheConsistent (env : Env) (s : Session) : Prop :=
  ∀ k t, alistLookup s.tiles k = some t → t = tileForKey env s.session_id k

/-- `_append_event`: issue the global counter as the event id, bump the
counter, append, and truncate the log to its trailing window when it
exceeds the hard ceiling.  Returns (event id, new counter, new session). -/
def appendEvent (next : Nat) (s : Session) (ty : String)
    (pl : List (String × String)) : Nat × Nat × Session :=
  let eid := next
  let events := s.events ++ [{ event_id := eid, type := ty, payload := pl }]
  let events := if events.length > 5000 then events.drop (events.length - 4000) else events
  (eid, next + 1, { s with events := events })

/-- The shared append-then-evict step used on journals by both
`_rollup_journal` and `log_narrative`: append, then delete the oldest
entries past the maximum (`del journal[: max(0, len - MAX)]`). -/
def journalAppend (j : List String) (e : String) : List String :=
  let j2 := j ++ [e]
  if j2.length > JOURNAL_MAX_ENTRIES then j2.drop (j2.length - JOURNAL_MAX_ENTRIES) else j2

/-- `_rollup_journal`: summarise the current tile into one line and append
it to the bounded journal. -/
def rollupJournal (env : Env) (s : Session) : Session :=
  let pos := s.position
  let et := ensureTile env s pos.x pos.y pos.z
  let s1 := et.2
  let t := s1.turn
  let summary := "Turn " ++ toString t ++ ": at " ++ coordKey pos.x pos.y pos.z ++ " — " ++
    joinSep ", " (et.1.salient_facts.take 3)
  { s1 with journal := journalAppend s1.journal summary }

/-- `_public_tile_payload`: the public snapshot of a session, ensuring the
current tile exists first. -/
def publicTilePayload (env : Env) (s : Session) : TilePayload × Session :=
  let pos := s.position
  let et := ensureTile env s pos.x pos.y pos.z
  ({ turn := et.2.turn, position := pos, tile := et.1.tile,
     salient_facts := et.1.salient_facts, exits := et.1.tile.exits,
     heading := et.2.heading, session_id := et.2.session_id,
     max_narrative_words := et.2.max_narrative_words, event_id := none }, et.2)

/-- Python `x or default` for optional strings: `None` and the empty string
both fall through to the default. -/
def orDefault (o : Option String) (d : String) : String :=
  match o with
  | some s => if s = "" then d else s
  | none => d

/-- `_slugify_name`: lowercase alphanumerics, everything else to an
underscore, strip and collapse underscores, defaulting to "foe". -/
def slugifyName (name : String) : String :=
  let base := name.data.map (fun ch => if ch.isAlphanum then ch.toLower else '_')
  let base := ((base.dropWhile (· = '_')).reverse.dropWhile (· = '_')).reverse
  let parts := (base.splitOnP (· = '_')).map String.mk
  let joined := joinSep "_" (parts.filter (· ≠ ""))
  if joined = "" then "foe" else joined

/-- The `session_id or _ACTIVE_SESSION_ID` resolution followed by the
`if not sid or sid not in _SESSIONS` guard shared by every operation. -/
def resolveSession (w : World) (sidArg : Option String) : Option (String × Session) :=
  let sid0 : Option String :=
    match sidArg with
    | some sid => if sid = "" then w.active else some sid
    | none => w.active
  match sid0 with
  | none => none
  | some sid =>
    if sid = "" then none
    else
      match alistLookup w.sessions sid with
      | none => none
      | some s => some (sid, s)

/-- The shared first step of `_normalize_direction`: strip/lower the token
and resolve single-letter aliases. -/
def canonicalDirectionToken (direction : String) : String :=
  let s0 := pyLower (pyStrip direction)
  match alistLookup DIR_ALIASES s0 with
  | some v => v
  | none => s0

/-- `_normalize_direction`: strip/lower the token, resolve single-letter
aliases, pass through absolute directions (cardinal moves set the heading
to the direction moved), resolve heading-relative tokens against the fixed
compass ordering, and reject anything else.  Python `(idx - 1) % 4` equals
`(idx + 3) % 4` on the index range used here. -/
def normalizeDirection (direction : String) (heading : String) :
    Except String (String × String) :=
  let s := canonicalDirectionToken direction
  if s ∈ BASE_DIRECTIONS then
    if s ∈ (["north", "south", "east", "west"] : List String) then Except.ok (s, s)
    else Except.ok (s, heading)
  else
    let compass : List String := ["north", "east", "south", "west"]
    let idx := if heading ∈ compass then compass.indexOf heading else 0
    if s = "forward" ∨ s = "ahead" then
      Except.ok (compass.getD idx "", compass.getD idx "")
    else if s = "back" ∨ s = "backward" ∨ s = "reverse" then
      Except.ok (compass.getD ((idx + 2) % 4) "", compass.getD ((idx + 2) % 4) "")
    else if s = "left" then
      Except.ok (compass.getD ((idx + 3) % 4) "", compass.getD ((idx + 3) % 4) "")
    else if s = "right" then
      Except.ok (compass.getD ((idx + 1) % 4) "", compass.getD ((idx + 1) % 4) "")
    else Except.error unknownDirectionMsg

/-- A direction token is recognized when, after strip/lower and alias
resolution, it is an absolute direction or a heading-relative token. -/
def recognizedDirectionToken (direction : String) : Bool :=
  let s := canonicalDirectionToken direction
  decide (s ∈ BASE_DIRECTIONS) || decide (s ∈ RELATIVE_TOKENS)

/-- `start_session` (via `_new_session`): build the fresh session at the
origin facing north, ensure the starting tile, register the session,
append the `session_start` event, set the active-session pointer, and
return the public snapshot.  The nondeterministic uuid-derived identity is
the `freshSid` input. -/
def startSession (env : Env) (w : World) (freshSid : String)
    (theme tone : Option String) (maxWords : Nat) : World × TilePayload :=
  let s0 : Session :=
    { session_id := freshSid, position := ⟨0, 0, 0⟩, heading := "north", turn := 0,
      tiles := [], events := [], journal := [], npcs := [],
      theme := orDefault theme "dungeon", tone := orDefault tone "moody",
      max_narrative_words := if maxWords = 0 then 80 else maxWords }
  let s1 := (ensureTile env s0 0 0 0).2
  let ap := appendEvent w.nextEventId s1 "session_start" [("position", coordKey 0 0 0)]
  let pp := publicTilePayload env ap.2.2
  ({ w with sessions := alistSet w.sessions freshSid pp.2,
            active := some freshSid, nextEventId := ap.2.1 }, pp.1)

/-- `move`: resolve the session, normalize the direction (errors escape
before any mutation), apply the delta, bump the turn counter, ensure the
destination tile, append the `move` event, roll the journal up every
`TURN_JOURNAL_ROLLUP_INTERVAL` turns, and return the snapshot with the
event id. -/
def move (env : Env) (w : World) (direction : String) (sidArg : Option String) :
    World × Except String TilePayload :=
  match resolveSession w sidArg with
  | none => (w, Except.error noActiveSessionMsg)
  | some (sid, session) =>
    match normalizeDirection direction session.heading with
    | Except.error e => (w, Except.error e)
    | Except.ok dh =>
      let dl := deltas dh.1
      let fromPos := session.position
      let pos : Pos := ⟨fromPos.x + dl.x, fromPos.y + dl.y, fromPos.z + dl.z⟩
      let s1 := { session with position := pos, heading := dh.2, turn := session.turn + 1 }
      let s2 := (ensureTile env s1 pos.x pos.y pos.z).2
      let ap := appendEvent w.nextEventId s2 "move"
        [("from", coordKey fromPos.x fromPos.y fromPos.z),
         ("to", coordKey pos.x pos.y pos.z), ("dir", dh.1), ("heading", dh.2)]
      let s3 := ap.2.2
      let s4 := if s3.turn % TURN_JOURNAL_ROLLUP_INTERVAL = 0 then rollupJournal env s3 else s3
      let pp := publicTilePayload env s4
      ({ w with sessions := alistSet w.sessions sid pp.2, nextEventId := ap.2.1 },
       Except.ok { pp.1 with event_id := some ap.1 })

/-- `look`: the same snapshot construction as `move`, with no change to
position, heading or turn (the current tile is still ensured, which may
populate the cache). -/
def look (env : Env) (w : World) (sidArg : Option String) :
    World × Except String TilePayload :=
  match resolveSession w sidArg with
  | none => (w, Except.error noActiveSessionMsg)
  | some (sid, session) =>
    let pp := publicTilePayload env session
    ({ w with sessions := alistSet w.sessions sid pp.2 }, Except.ok pp.1)

/-- `log_narrative`: validate the event id, append a `narrative` event,
then append the first line of the stripped text (truncated to 120
characters) to the bounded journal.  When the stripped text is empty the
source raises IndexError from `splitlines()[0]` after the event append, so
that branch returns the event-appended world together with the error. -/
def logNarrative (w : World) (text : String) (eventId : Int)
    (sidArg : Option String) : World × Except String Nat :=
  match resolveSession w sidArg with
  | none => (w, Except.error noActiveSessionMsg)
  | some (sid, session) =>
    if eventId ≤ 0 then (w, Except.error "event_id must be a positive integer")
    else
      let ap := appendEvent w.nextEventId session "narrative"
        [("event_id", toString eventId), ("text", text)]
      let s1 := ap.2.2
      let stripped := pyStrip text
      if stripped = "" then
        ({ w with sessions := alistSet w.sessions sid s1, nextEventId := ap.2.1 },
         Except.error "IndexError: list index out of range")
      else
        let snippet := String.mk ((stripped.data.takeWhile (fun ch => ch ≠ '\n')).take 120)
        let s2 :=
          if snippet ≠ "" then
            { s1 with journal :=
                journalAppend s1.journal ("Turn " ++ toString s1.turn ++ ": " ++ snippet) }
          else s1
        ({ w with sessions := alistSet w.sessions sid s2, nextEventId := ap.2.1 },
         Except.ok ap.1)

/-- `journal`: the rolling summary query; reads the trailing window of the
journal and mutates nothing. -/
def journalOp (w : World) (sidArg : Option String) :
    World × Except String (Nat × List String) :=
  match resolveSession w sidArg with
  | none => (w, Except.error noActiveSessionMsg)
  | some (_, session) =>
    (w, Except.ok (session.turn, lastN session.journal JOURNAL_MAX_ENTRIES))

/-- `spawn_npc`: ensure the current tile, derive a fresh random source from
the tile seed mixed with wall-clock entropy (`timeVal`), pick or accept a
kind, synthesise a name if none given (`uuidA` models `uuid4().hex[:4]`),
draw the armor class uniformly from [10, 15], register the NPC (`uuidB`
models `uuid4().hex[:6]`), replace its entry in the tile entity list keyed
by id, and append the `spawn_npc` event. -/
def spawnNpc (env : Env) (w : World) (nameArg kindArg : Option String)
    (sidArg : Option String) (timeVal : Nat) (uuidA uuidB : String) :
    World × Except String (Npc × Nat) :=
  match resolveSession w sidArg with
  | none => (w, Except.error noActiveSessionMsg)
  | some (sid, session) =>
    let pos := session.position
    let et := ensureTile env session pos.x pos.y pos.z
    let s1 := et.2
    let rng := env.seedRNG (Nat.xor (seedForTile env sid pos.x pos.y pos.z) timeVal)
    let kindPool : List String := ["goblin", "skeleton", "kobold", "bandit", "slime"]
    let kr : String × RNG :=
      match kindArg with
      | some k => if k = "" then rngChoice rng kindPool else (k, rng)
      | none => rngChoice rng kindPool
    let k := kr.1
    let nm := orDefault nameArg (titleCase k ++ " " ++ slugifyName uuidA)
    let ar := rngRandint kr.2 10 15
    let armorClass := ar.1
    let npcId := "npc_" ++ slugifyName nm ++ "_" ++ uuidB
    let npc : Npc := { id := npcId, name := nm, kind := k, armor_class := armorClass,
                       position := pos, disposition := "hostile" }
    let s2 := { s1 with npcs := alistSet s1.npcs npcId npc }
    let ent : Entity := { id := npcId, kind := k, disposition := "hostile", name := some nm }
    let entities := (et.1.tile.entities.filter (fun e => e.id ≠ npcId)) ++ [ent]
    let newTile := { et.1 with tile := { et.1.tile with entities := entities } }
    let s3 := { s2 with tiles := alistSet s2.tiles (coordKey pos.x pos.y pos.z) newTile }
    let ap := appendEvent w.nextEventId s3 "spawn_npc" [("npc", npcId)]
    ({ w with sessions := alistSet w.sessions sid ap.2.2, nextEventId := ap.2.1 },
     Except.ok (npc, ap.1))

/-- `get_npc`: registry lookup, NotFound on an unknown id. -/
def getNpc (w : World) (npcId : String) (sidArg : Option String) :
    World × Except String Npc :=
  match resolveSession w sidArg with
  | none => (w, Except.error noActiveSessionMsg)
  | some (_, session) =>
    match alistLookup session.npcs npcId with
    | none => (w, Except.error "Unknown npc_id")
    | some npc => (w, Except.ok npc)

/-- `set_active_session`. -/
def setActiveSession (w : World) (sid : String) : World × Except String (String × Nat) :=
  match alistLookup w.sessions sid with
  | none => (w, Except.error "Unknown session_id")
  | some s => ({ w with active := some sid }, Except.ok (sid, s.turn))

/-- `parse_dice_notation`: accept NdM and the shorthand dM (count defaults
to one); count and sides must be positive (quote marks of the source error
texts omitted). -/
def parseDice (nota : String) : Except String (Nat × Nat) :=
  let s := pyStrip (pyLower nota)
  if ¬ pyContainsChar s 'd' then
    Except.error "Use NdM format, e.g. 2d20, or shorthand d20"
  else
    match splitOnceChar 'd' s.data with
    | none => Except.error "Use NdM format, e.g. 2d20, or shorthand d20"
    | some p =>
      let countStr := String.mk p.1
      let sidesStr := String.mk p.2
      if ¬ pyIsDigit sidesStr then
        Except.error "Number of sides must be digits after d, e.g. d20"
      else
        let sides := digitsToNat sidesStr
        let countRes : Except String Nat :=
          if countStr = "" then Except.ok 1
          else if ¬ pyIsDigit countStr then
            Except.error "Number of dice must be digits before d, e.g. 2d6"
          else Except.ok (digitsToNat countStr)
        match countRes with
        | Except.error e => Except.error e
        | Except.ok count =>
          if count = 0 ∨ sides = 0 then Except.error "Count and sides must be positive"
          else Except.ok (count, sides)

/-- The structured result of `roll_with_advantage` (the source key named
after the dice notation is `nota` here). -/
structure AdvantageRollResult where
  nota : String
  sides : Nat
  rolls : List Nat
  result : Nat
  is_critical_success : Bool
  is_critical_fail : Bool
  message : String
deriving DecidableEq

/-- The tail of `roll_with_advantage` once the side count is known: two
draws in [1, sides], the higher kept, critical flags only on a d20. -/
def advantageRollOf (rng : RNG) (sides : Nat) : AdvantageRollResult × RNG :=
  let r1 := rngRandint rng 1 sides
  let first := r1.1
  let r2 := rngRandint r1.2 1 sides
  let second := r2.1
  let result := max first second
  ({ nota := "d" ++ toString sides, sides := sides, rolls := [first, second],
     result := result,
     is_critical_success := decide (sides = 20 ∧ result = 20),
     is_critical_fail := decide (sides = 20 ∧ result = 1),
     message := if sides = 20 ∧ result = 20 then "Critical success"
       else if sides = 20 ∧ result = 1 then "Critical fail" else "" }, r2.2)

/-- `roll_with_advantage`: parse dM (or NdM with a single die enforced),
reject a non-positive side count, then roll twice with advantage.  The
module-level `random` draws are the threaded `rng`. -/
def rollWithAdvantage (rng : RNG) (nota : String) :
    Except String (AdvantageRollResult × RNG) :=
  let s := pyStrip (pyLower nota)
  if s = "" ∨ ¬ pyContainsChar s 'd' then Except.error "Use dM format, e.g. d20"
  else
    let sidesRes : Except String Nat :=
      if pyStartsWithChar s 'd' then
        let sidesStr := String.mk (s.data.drop 1)
        if ¬ pyIsDigit sidesStr then
          Except.error "Use dM format with digits after d, e.g. d20"
        else Except.ok (digitsToNat sidesStr)
      else
        match parseDice s with
        | Except.error e => Except.error e
        | Except.ok cs =>
          if cs.1 ≠ 1 then Except.error "Advantage uses a single die: use d20, not 2d20"
          else Except.ok cs.2
    match sidesRes with
    | Except.error e => Except.error e
    | Except.ok sides =>
      if sides = 0 then Except.error "Sides must be positive"
      else Except.ok (advantageRollOf rng sides)

/-- Modelled from the spec: an enemy combatant of the combat engine.  The
combat operations (`generate_encounter`, `attack`, `combat_status`,
`combat_end`) are imported by `loop.py` from `tools.llm_tools_server` but
are absent from the source tree, so-called only through their interface;
this and the following definitions model the attack resolution of spec
section 4.5. -/
structure Combatant where
  id : String
  name : String
  kind : String
  hp : Nat
  max_hp : Nat
  armor_class : Nat
deriving DecidableEq

/-- Modelled from the spec: the active-combat sub-state (active flag,
round counter, enemy list). -/
structure CombatState where
  active : Bool
  round : Nat
  enemies : List Combatant
deriving DecidableEq

/-- Modelled from the spec: the outcome of one attack resolution. -/
inductive AttackOutcome where
  | miss : AttackOutcome
  | hit : Nat → Bool → AttackOutcome
deriving DecidableEq

/-- Modelled from the spec: the attack die — advantage keeps the higher of
two d20 rolls, disadvantage the lower, otherwise a single roll. -/
def attackRoll (first second : Nat) (advantage disadvantage : Bool) : Nat :=
  if advantage then max first second
  else if disadvantage then min first second
  else first

/-- Modelled from the spec: hit resolution — a natural 20 is an automatic
critical hit with the damage dice rolled twice and summed, a natural 1 an
automatic miss; otherwise the attack hits when the roll meets or exceeds
the armor class.  `dmg1` and `dmg2` are the two independent damage-dice
totals. -/
def resolveHit (roll : Nat) (ac : Nat) (dmg1 dmg2 : Nat) : AttackOutcome :=
  if roll = 20 then AttackOutcome.hit (dmg1 + dmg2) true
  else if roll = 1 then AttackOutcome.miss
  else if ac ≤ roll then AttackOutcome.hit dmg1 false
  else AttackOutcome.miss

/-- Modelled from the spec: `attack` — InvalidState unless combat is
Active, target the first still-alive enemy, resolve the hit, subtract
damage floored at zero, and resolve combat when every enemy is at zero. -/
def attack (cs : CombatState) (roll : Nat) (dmg1 dmg2 : Nat) :
    Except String (CombatState × AttackOutcome) :=
  if cs.active = false then Except.error "InvalidState: no active combat"
  else
    match cs.enemies.find? (fun e => decide (0 < e.hp)) with
    | none => Except.error "InvalidState: no active combat"
    | some target =>
      let outcome := resolveHit roll target.armor_class dmg1 dmg2
      let dmg := match outcome with
        | AttackOutcome.hit d _ => d
        | AttackOutcome.miss => 0
      let enemies := cs.enemies.map
        (fun e => if e.id = target.id then { e with hp := e.hp - dmg } else e)
      let resolved := enemies.all (fun e => decide (e.hp = 0))
      Except.ok ({ cs with enemies := enemies, active := !resolved }, outcome)

/-- One external operation of the tool facade, with every source of
nondeterminism (fresh session identities, wall-clock entropy, uuid
fragments) supplied as data. -/
inductive Op where
  | startOp : String → Option String → Option String → Nat → Op
  | moveOp : String → Option String → Op
  | lookOp : Option String → Op
  | logOp : String → Int → Option String → Op
  | journalQueryOp : Option String → Op
  | spawnOp : Option String → Option String → Option String → Nat → String → String → Op
  | getNpcOp : String → Option String → Op
  | setActiveOp : String → Op

/-- Apply one operation to the world, discarding its return payload. -/
def applyOp (env : Env) (w : World) : Op → World
  | Op.startOp freshSid theme tone mw => (startSession env w freshSid theme tone mw).1
  | Op.moveOp d sidArg => (move env w d sidArg).1
  | Op.lookOp sidArg => (look env w sidArg).1
  | Op.logOp text eid sidArg => (logNarrative w text eid sidArg).1
  | Op.journalQueryOp sidArg => (journalOp w sidArg).1
  | Op.spawnOp n k sidArg tv ua ub => (spawnNpc env w n k sidArg tv ua ub).1
  | Op.getNpcOp nid sidArg => (getNpc w nid sidArg).1
  | Op.setActiveOp sid => (setActiveSession w sid).1

/-- The consecutive naturals `[start, start + n)`. -/
def idRange (start : Nat) : Nat → List Nat
  | 0 => []
  | n + 1 => start :: idRange (start + 1) n

/-- Run a sequence of operations, collecting the event ids assigned by
`appendEvent` along the way: each operation consumes exactly the counter
values between its entry and exit worlds. -/
def runOps (env : Env) : World → List Op → World × List Nat
  | w, [] => (w, [])
  | w, op :: ops =>
    let w1 := applyOp env w op
    let rest := runOps env w1 ops
    (rest.1, idRange w.nextEventId (w1.nextEventId - w.nextEventId) ++ rest.2)

/-- A degenerate PRNG (constantly zero) for concrete instantiations. -/
def rngZero : RNG := ⟨fun _ => 0⟩

/-- A degenerate environment for concrete instantiations. -/
def env0 : Env := ⟨fun _ => 0, fun _ => rngZero⟩

/-- A concrete session for concrete instantiations. -/
def session0 : Session :=
  { session_id := "s_test", position := ⟨0, 0, 0⟩, heading := "north", turn := 0,
    tiles := [], events := [], journal := [], npcs := [],
    theme := "dungeon", tone := "moody", max_narrative_words := 80 }

/-- A concrete world holding `session0` as the active session. -/
def world0 : World :=
  { sessions := [("s_test", session0)], active := some "s_test", nextEventId := 1 }

/-- The concrete advantage roll produced by `rngZero` on a d20: both draws
are 1, so the result is a critical fail. -/
def advResFail : AdvantageRollResult :=
  { nota := "d20", sides := 20, rolls := [1, 1], result := 1,
    is_critical_success := false, is_critical_fail := true, message := "Critical fail" }

/-- A concrete enemy for combat instantiations. -/
def enemy0 : Combatant :=
  { id := "npc_gruk", name := "Gruk", kind := "goblin", hp := 5, max_hp := 7,
    armor_class := 12 }

/-- A concrete active combat state. -/
def combat0 : CombatState := { active := true, round := 1, enemies := [enemy0] }

theorem alistLookup_set_self {β : Type} (l : List (String × β)) (k : String) (v : β) :
    alistLookup (alistSet l k v) k = some v := by
  simp [alistLookup, alistSet]

theorem alistLookup_cons {β : Type} (k0 : String) (v : β) (l : List (String × β))
    (k : String) :
    alistLookup ((k0, v) :: l) k = if k0 = k then some v else alistLookup l k := rfl

theorem ensureTile_snd (env : Env) (s : Session) (x y z : Int) :
    ∃ tl, (ensureTile env s x y z).2 = { s with tiles := tl } := by
  unfold ensureTile
  cases h : alistLookup s.tiles (coordKey x y z) with
  | none => exact ⟨_, rfl⟩
  | some t => exact ⟨s.tiles, rfl⟩

@[simp] theorem ensureTile_position (env : Env) (s : Session) (x y z : Int) :
    (ensureTile env s x y z).2.position = s.position := by
  obtain ⟨tl, h⟩ := ensureTile_snd env s x y z; rw [h]

@[simp] theorem ensureTile_heading (env : Env) (s : Session) (x y z : Int) :
    (ensureTile env s x y z).2.heading = s.heading := by
  obtain ⟨tl, h⟩ := ensureTile_snd env s x y z; rw [h]

@[simp] theorem ensureTile_turn (env : Env) (s : Session) (x y z : Int) :
    (ensureTile env s x y z).2.turn = s.turn := by
  obtain ⟨tl, h⟩ := ensureTile_snd env s x y z; rw [h]

@[simp] theorem ensureTile_session_id (env : Env) (s : Session) (x y z : Int) :
    (ensureTile env s x y z).2.session_id = s.session_id := by
  obtain ⟨tl, h⟩ := ensureTile_snd env s x y z; rw [h]

@[simp] theorem ensureTile_journal (env : Env) (s : Session) (x y z : Int) :
    (ensureTile env s x y z).2.journal = s.journal := by
  obtain ⟨tl, h⟩ := ensureTile_snd env s x y z; rw [h]

@[simp] theorem ensureTile_events (env : Env) (s : Session) (x y z : Int) :
    (ensureTile env s x y z).2.events = s.events := by
  obtain ⟨tl, h⟩ := ensureTile_snd env s x y z; rw [h]

@[simp] theorem ensureTile_max_words (env : Env) (s : Session) (x y z : Int) :
    (ensureTile env s x y z).2.max_narrative_words = s.max_narrative_words := by
  obtain ⟨tl, h⟩ := ensureTile_snd env s x y z; rw [h]

@[simp] theorem appendEvent_eid (next : Nat) (s : Session) (ty : String)
    (pl : List (String × String)) : (appendEvent next s ty pl).1 = next := rfl

@[simp] theorem appendEvent_next (next : Nat) (s : Session) (ty : String)
    (pl : List (String × String)) : (appendEvent next s ty pl).2.1 = next + 1 := rfl

theorem appendEvent_snd (next : Nat) (s : Session) (ty : String)
    (pl : List (String × String)) :
    ∃ ev, (appendEvent next s ty pl).2.2 = { s with events := ev } := ⟨_, rfl⟩

@[simp] theorem appendEvent_position (next : Nat) (s : Session) (ty : String)
    (pl : List (String × String)) : (appendEvent next s ty pl).2.2.position = s.position := rfl

@[simp] theorem appendEvent_heading (next : Nat) (s : Session) (ty : String)
    (pl : List (String × String)) : (appendEvent next s ty pl).2.2.heading = s.heading := rfl

@[simp] theorem appendEvent_turn (next : Nat) (s : Session) (ty : String)
    (pl : List (String × String)) : (appendEvent next s ty pl).2.2.turn = s.turn := rfl

@[simp] theorem appendEvent_session_id (next : Nat) (s : Session) (ty : String)
    (pl : List (String × String)) :
    (appendEvent next s ty pl).2.2.session_id = s.session_id := rfl

@[simp] theorem appendEvent_journal (next : Nat) (s : Session) (ty : String)
    (pl : List (String × String)) : (appendEvent next s ty pl).2.2.journal = s.journal := rfl

theorem rollupJournal_spec (env : Env) (s : Session) :
    ∃ tl line, rollupJournal env s =
      { s with tiles := tl, journal := journalAppend s.journal line } := by
  obtain ⟨tl, h⟩ := ensureTile_snd env s s.position.x s.position.y s.position.z
  simp only [rollupJournal]
  rw [h]
  exact ⟨tl, _, rfl⟩

@[simp] theorem rollupJournal_position (env : Env) (s : Session) :
    (rollupJournal env s).position = s.position := by
  obtain ⟨tl, line, h⟩ := rollupJournal_spec env s; rw [h]

@[simp] theorem rollupJournal_heading (env : Env) (s : Session) :
    (rollupJournal env s).heading = s.heading := by
  obtain ⟨tl, line, h⟩ := rollupJournal_spec env s; rw [h]

@[simp] theorem rollupJournal_turn (env : Env) (s : Session) :
    (rollupJournal env s).turn = s.turn := by
  obtain ⟨tl, line, h⟩ := rollupJournal_spec env s; rw [h]

@[simp] theorem rollupJournal_session_id (env : Env) (s : Session) :
    (rollupJournal env s).session_id = s.session_id := by
  obtain ⟨tl, line, h⟩ := rollupJournal_spec env s; rw [h]

@[simp] theorem publicTilePayload_snd_position (env : Env) (s : Session) :
    (publicTilePayload env s).2.position = s.position := by
  simp [publicTilePayload]

@[simp] theorem publicTilePayload_snd_heading (env : Env) (s : Session) :
    (publicTilePayload env s).2.heading = s.heading := by
  simp [publicTilePayload]

@[simp] theorem publicTilePayload_snd_turn (env : Env) (s : Session) :
    (publicTilePayload env s).2.turn = s.turn := by
  simp [publicTilePayload]

@[simp] theorem publicTilePayload_snd_session_id (env : Env) (s : Session) :
    (publicTilePayload env s).2.session_id = s.session_id := by
  simp [publicTilePayload]

@[simp] theorem publicTilePayload_snd_journal (env : Env) (s : Session) :
    (publicTilePayload env s).2.journal = s.journal := by
  simp [publicTilePayload]

@[simp] theorem publicTilePayload_snd_events (env : Env) (s : Session) :
    (publicTilePayload env s).2.events = s.events := by
  simp [publicTilePayload]

@[simp] theorem publicTilePayload_fst_turn (env : Env) (s : Session) :
    (publicTilePayload env s).1.turn = s.turn := by
  simp [publicTilePayload]

@[simp] theorem publicTilePayload_fst_position (env : Env) (s : Session) :
    (publicTilePayload env s).1.position = s.position := rfl

@[simp] theorem publicTilePayload_fst_heading (env : Env) (s : Session) :
    (publicTilePayload env s).1.heading = s.heading := by
  simp [publicTilePayload]

@[simp] theorem publicTilePayload_fst_session_id (env : Env) (s : Session) :
    (publicTilePayload env s).1.session_id = s.session_id := by
  simp [publicTilePayload]

@[simp] theorem publicTilePayload_fst_max_words (env : Env) (s : Session) :
    (publicTilePayload env s).1.max_narrative_words = s.max_narrative_words := by
  simp [publicTilePayload]

@[simp] theorem publicTilePayload_fst_event_id (env : Env) (s : Session) :
    (publicTilePayload env s).1.event_id = none := rfl

theorem publicTilePayload_fst_tile (env : Env) (s : Session) :
    (publicTilePayload env s).1.tile =
      (ensureTile env s s.position.x s.position.y s.position.z).1.tile := rfl

theorem publicTilePayload_fst_facts (env : Env) (s : Session) :
    (publicTilePayload env s).1.salient_facts =
      (ensureTile env s s.position.x s.position.y s.position.z).1.salient_facts := rfl

theorem publicTilePayload_fst_exits (env : Env) (s : Session) :
    (publicTilePayload env s).1.exits =
      (ensureTile env s s.position.x s.position.y s.position.z).1.tile.exits := rfl

theorem resolveSession_some (w : World) (sid : String) (s : Session)
    (hsid : sid ≠ "") (hs : alistLookup w.sessions sid = some s) :
    resolveSession w (some sid) = some (sid, s) := by
  simp [resolveSession, hsid, hs]

theorem normD_north (heading : String) :
    normalizeDirection "north" heading = Except.ok ("north", "north") := rfl

theorem normD_south (heading : String) :
    normalizeDirection "south" heading = Except.ok ("south", "south") := rfl

theorem normD_east (heading : String) :
    normalizeDirection "east" heading = Except.ok ("east", "east") := rfl

theorem normD_west (heading : String) :
    normalizeDirection "west" heading = Except.ok ("west", "west") := rfl

theorem normD_up (heading : String) :
    normalizeDirection "up" heading = Except.ok ("up", heading) := rfl

theorem normD_down (heading : String) :
    normalizeDirection "down" heading = Except.ok ("down", heading) := rfl

theorem Pos.ext' {p q : Pos} (hx : p.x = q.x) (hy : p.y = q.y) (hz : p.z = q.z) :
    p = q := by
  cases p; cases q; simp_all

theorem move_ok_spec (env : Env) (w : World) (direction : String) (sidArg : Option String)
    (sid : String) (s : Session) (absDir newHeading : String)
    (hres : resolveSession w sidArg = some (sid, s))
    (hnorm : normalizeDirection direction s.heading = Except.ok (absDir, newHeading)) :
    ∃ s1 payload,
      move env w direction sidArg =
        ({ w with sessions := alistSet w.sessions sid s1,
                  nextEventId := w.nextEventId + 1 }, Except.ok payload) ∧
      s1.position = ⟨s.position.x + (deltas absDir).x, s.position.y + (deltas absDir).y,
        s.position.z + (deltas absDir).z⟩ ∧
      s1.turn = s.turn + 1 ∧ s1.heading = newHeading ∧ s1.session_id = s.session_id ∧
      payload.event_id = some w.nextEventId := by
  simp only [move, hres, hnorm, appendEvent_next, appendEvent_eid]
  refine ⟨_, _, rfl, ?_, ?_, ?_, ?_, rfl⟩ <;>
    simp [apply_ite Session.position, apply_ite Session.turn, apply_ite Session.heading,
      apply_ite Session.session_id]

theorem move_roundtrip_aux (env : Env) (w : World) (sid : String) (s : Session)
    (d dOpp : String) (hsid : sid ≠ "") (hs : alistLookup w.sessions sid = some s)
    (hnd : ∀ hd, ∃ nh, normalizeDirection d hd = Except.ok (d, nh))
    (hno : ∀ hd, ∃ nh, normalizeDirection dOpp hd = Except.ok (dOpp, nh))
    (hx : (deltas d).x + (deltas dOpp).x = 0)
    (hy : (deltas d).y + (deltas dOpp).y = 0)
    (hz : (deltas d).z + (deltas dOpp).z = 0) :
    ∃ w1 p1 w2 p2 s2,
      move env w d (some sid) = (w1, Except.ok p1) ∧
      move env w1 dOpp (some sid) = (w2, Except.ok p2) ∧
      alistLookup w2.sessions sid = some s2 ∧
      s2.position = s.position ∧ s2.turn = s.turn + 2 := by
  have hres := resolveSession_some w sid s hsid hs
  obtain ⟨nh1, hn1⟩ := hnd s.heading
  obtain ⟨s1, p1, hmv1, hp1, ht1, _, _, _⟩ :=
    move_ok_spec env w d (some sid) sid s d nh1 hres hn1
  set w1 : World := { w with sessions := alistSet w.sessions sid s1,
                             nextEventId := w.nextEventId + 1 } with hw1
  have hs1 : alistLookup w1.sessions sid = some s1 := alistLookup_set_self _ _ _
  have hres2 := resolveSession_some w1 sid s1 hsid hs1
  obtain ⟨nh2, hn2⟩ := hno s1.heading
  obtain ⟨s2, p2, hmv2, hp2, ht2, _, _, _⟩ :=
    move_ok_spec env w1 dOpp (some sid) sid s1 dOpp nh2 hres2 hn2
  refine ⟨w1, p1, _, p2, s2, hmv1, hmv2, alistLookup_set_self _ _ _, ?_, by omega⟩
  rw [hp2, hp1]
  refine Pos.ext' ?_ ?_ ?_ <;> simp <;> omega

theorem startSession_nextEventId (env : Env) (w : World) (freshSid : String)
    (theme tone : Option String) (maxWords : Nat) :
    (startSession env w freshSid theme tone maxWords).1.nextEventId =
      w.nextEventId + 1 := rfl

theorem move_mono (env : Env) (w : World) (d : String) (sidArg : Option String) :
    w.nextEventId ≤ (move env w d sidArg).1.nextEventId := by
  unfold move
  cases hres : resolveSession w sidArg with
  | none => simp
  | some p =>
    obtain ⟨sid, s⟩ := p
    cases hn : normalizeDirection d s.heading with
    | error e => simp [hn]
    | ok dh => simp [hn]

theorem look_mono (env : Env) (w : World) (sidArg : Option String) :
    w.nextEventId ≤ (look env w sidArg).1.nextEventId := by
  unfold look
  cases hres : resolveSession w sidArg with
  | none => simp
  | some p => simp

theorem logNarrative_mono (w : World) (text : String) (eventId : Int)
    (sidArg : Option String) :
    w.nextEventId ≤ (logNarrative w text eventId sidArg).1.nextEventId := by
  unfold logNarrative
  cases hres : resolveSession w sidArg with
  | none => simp
  | some p =>
    obtain ⟨sid, s⟩ := p
    by_cases he : eventId ≤ 0
    · simp [he]
    · by_cases hstr : pyStrip text = ""
      · simp [he, hstr]
      · simp [he, hstr]

theorem spawnNpc_mono (env : Env) (w : World) (nameArg kindArg sidArg : Option String)
    (timeVal : Nat) (uuidA uuidB : String) :
    w.nextEventId ≤ (spawnNpc env w nameArg kindArg sidArg timeVal uuidA uuidB).1.nextEventId := by
  unfold spawnNpc
  cases hres : resolveSession w sidArg with
  | none => simp
  | some p =>
    obtain ⟨sid, s⟩ := p
    simp

theorem journalOp_mono (w : World) (sidArg : Option String) :
    w.nextEventId ≤ (journalOp w sidArg).1.nextEventId := by
  unfold journalOp
  cases hres : resolveSession w sidArg with
  | none => simp
  | some p => obtain ⟨sid, s⟩ := p; simp

theorem getNpc_mono (w : World) (npcId : String) (sidArg : Option String) :
    w.nextEventId ≤ (getNpc w npcId sidArg).1.nextEventId := by
  unfold getNpc
  cases hres : resolveSession w sidArg with
  | none => simp
  | some p =>
    obtain ⟨sid, s⟩ := p
    cases hn : alistLookup s.npcs npcId with
    | none => simp [hn]
    | some npc => simp [hn]

theorem setActiveSession_mono (w : World) (sid : String) :
    w.nextEventId ≤ (setActiveSession w sid).1.nextEventId := by
  unfold setActiveSession
  cases hl : alistLookup w.sessions sid with
  | none => simp
  | some s => simp

theorem applyOp_mono (env : Env) (w : World) (op : Op) :
    w.nextEventId ≤ (applyOp env w op).nextEventId := by
  cases op with
  | startOp freshSid theme tone mw =>
    simp [applyOp, startSession_nextEventId]
  | moveOp d sidArg => exact move_mono env w d sidArg
  | lookOp sidArg => exact look_mono env w sidArg
  | logOp text eid sidArg => exact logNarrative_mono w text eid sidArg
  | journalQueryOp sidArg => exact journalOp_mono w sidArg
  | spawnOp n k sidArg tv ua ub => exact spawnNpc_mono env w n k sidArg tv ua ub
  | getNpcOp nid sidArg => exact getNpc_mono w nid sidArg
  | setActiveOp sid => exact setActiveSession_mono w sid

theorem mem_idRange {i start n : Nat} (h : i ∈ idRange start n) :
    start ≤ i ∧ i < start + n := by
  induction n generalizing start with
  | zero => simp [idRange] at h
  | succ n ih =>
    simp only [idRange, List.mem_cons] at h
    rcases h with rfl | h
    · omega
    · have := ih h; omega

theorem idRange_pairwise (start n : Nat) :
    List.Pairwise (fun a b => a < b) (idRange start n) := by
  induction n generalizing start with
  | zero => exact List.Pairwise.nil
  | succ n ih =>
    refine List.Pairwise.cons ?_ (ih (start + 1))
    intro b hb
    have := mem_idRange hb
    omega

theorem runOps_lb (env : Env) (ops : List Op) (w : World) :
    ∀ i ∈ (runOps env w ops).2, w.nextEventId ≤ i := by
  induction ops generalizing w with
  | nil => simp [runOps]
  | cons op ops ih =>
    intro i hi
    simp only [runOps, List.mem_append] at hi
    rcases hi with hi | hi
    · exact (mem_idRange hi).1
    · have h1 := applyOp_mono env w op
      have h2 := ih (applyOp env w op) i hi
      omega

theorem runOps_pairwise (env : Env) (w : World) (ops : List Op) :
    List.Pairwise (fun a b => a < b) (runOps env w ops).2 := by
  induction ops generalizing w with
  | nil => simp [runOps]
  | cons op ops ih =>
    simp only [runOps]
    refine List.pairwise_append.2 ⟨idRange_pairwise _ _, ih _, ?_⟩
    intro a ha b hb
    have h1 := mem_idRange ha
    have h2 := runOps_lb env ops (applyOp env w op) b hb
    have h3 := applyOp_mono env w op
    omega


theorem journalAppend_length_le (j : List String) (e : String) :
    (journalAppend j e).length ≤ JOURNAL_MAX_ENTRIES := by
  simp only [journalAppend, JOURNAL_MAX_ENTRIES]
  split <;> rename_i h
  · simp only [List.length_drop]
    omega
  · omega

theorem journalAppend_suffix (j : List String) (e : String) :
    (journalAppend j e).IsSuffix (j ++ [e]) := by
  simp only [journalAppend]
  split
  · exact List.drop_suffix _ _
  · exact List.suffix_refl _

theorem rngChoice_mem (r : RNG) (xs : List String) (hxs : xs ≠ []) :
    (rngChoice r xs).1 ∈ xs := by
  have hlen : 0 < xs.length := List.length_pos.mpr hxs
  have hlt : (rngNext r).1 % xs.length < xs.length := Nat.mod_lt _ hlen
  simp only [rngChoice]
  rw [List.getD_eq_getElem _ _ hlt]
  exact List.getElem_mem _

theorem genExits_length_pos (r : RNG) : 0 < (genExits r).1.length := by
  simp only [genExits]
  by_cases h : (genExitsDraws r).1 = [] <;> simp [h]
  exact List.length_pos.mpr h

theorem genExitsDraws_subset (r : RNG) :
    ∀ dd ∈ (genExitsDraws r).1, dd ∈ (["north", "east", "south", "west"] : List String) := by
  intro dd hdd
  simp only [genExitsDraws, List.mem_append] at hdd
  rcases hdd with ((h | h) | h) | h <;> (split at h <;> simp_all)

theorem genExits_subset (r : RNG) :
    ∀ dd ∈ (genExits r).1, dd ∈ (["north", "east", "south", "west"] : List String) := by
  intro dd hdd
  simp only [genExits] at hdd
  by_cases h : (genExitsDraws r).1 = []
  · rw [if_pos h] at hdd
    simp only [List.mem_singleton] at hdd
    subst hdd
    exact rngChoice_mem _ _ (by simp)
  · rw [if_neg h] at hdd
    exact genExitsDraws_subset r dd hdd

theorem normalizeDirection_unrecognized (direction heading : String)
    (h : recognizedDirectionToken direction = false) :
    normalizeDirection direction heading = Except.error unknownDirectionMsg := by
  simp only [recognizedDirectionToken, Bool.or_eq_false_iff,
    decide_eq_false_iff_not] at h
  obtain ⟨h1, h2⟩ := h
  simp [RELATIVE_TOKENS] at h2
  obtain ⟨hfw, hah, hbk, hbw, hrv, hlf, hrt⟩ := h2
  simp [normalizeDirection, h1, hfw, hah, hbk, hbw, hrv, hlf, hrt]

theorem rollWithAdvantage_ok (rng : RNG) (nota : String) (res : AdvantageRollResult)
    (rng' : RNG) (h : rollWithAdvantage rng nota = Except.ok (res, rng')) :
    ∃ sides, 0 < sides ∧ (res, rng') = advantageRollOf rng sides := by
  simp only [rollWithAdvantage] at h
  split at h
  · exact absurd h (by simp)
  · split at h
    · exact absurd h (by simp)
    · rename_i sides heq
      split at h
      · exact absurd h (by simp)
      · rename_i hz
        refine ⟨sides, by omega, ?_⟩
        exact ((Except.ok.injEq _ _).mp h).symm

theorem advantageRollOf_spec (rng : RNG) (sides : Nat) (hpos : 0 < sides) :
    0 < (advantageRollOf rng sides).1.sides ∧
    (advantageRollOf rng sides).1.rolls.length = 2 ∧
    (advantageRollOf rng sides).1.result =
      max ((advantageRollOf rng sides).1.rolls.getD 0 0)
        ((advantageRollOf rng sides).1.rolls.getD 1 0) ∧
    (∀ v ∈ (advantageRollOf rng sides).1.rolls,
      1 ≤ v ∧ v ≤ (advantageRollOf rng sides).1.sides) ∧
    ((advantageRollOf rng sides).1.is_critical_success = true ↔
      ((advantageRollOf rng sides).1.sides = 20 ∧
        (advantageRollOf rng sides).1.result = 20)) ∧
    ((advantageRollOf rng sides).1.is_critical_fail = true ↔
      ((advantageRollOf rng sides).1.sides = 20 ∧
        (advantageRollOf rng sides).1.result = 1)) := by
  have hmod : sides - 1 + 1 = sides := by omega
  have hb1 : (rngNext rng).1 % sides < sides := Nat.mod_lt _ hpos
  have hb2 : (rngNext (rngNext rng).2).1 % sides < sides := Nat.mod_lt _ hpos
  simp only [advantageRollOf, rngRandint, hmod]
  refine ⟨hpos, rfl, rfl, ?_, by simp, by simp⟩
  intro v hv
  simp only [List.mem_cons, List.not_mem_nil, or_false] at hv
  rcases hv with rfl | rfl <;> constructor <;> omega

/-- C1: tile generation is deterministic in the session identity and the
coordinate alone.  Over every hash function and every seeded PRNG
(`Env`): on a consistent cache, `_ensure_tile` returns exactly
`_generate_tile` of the session identity and coordinate (so regeneration
after eviction or restart reproduces the cached content, biome, lighting,
entities, items, exits, hazards and salient facts alike), consistency is
preserved, and a second call returns the identical tile and state. -/
theorem tile_generation_deterministic (env : Env) (s : Session) (x y z : Int)
    (hc : cacheConsistent env s) :
    (ensureTile env s x y z).1 = generateTile env s.session_id x y z ∧
    cacheConsistent env (ensureTile env s x y z).2 ∧
    (ensureTile env s x y z).2.session_id = s.session_id ∧
    ensureTile env (ensureTile env s x y z).2 x y z = ensureTile env s x y z := by
  cases h : alistLookup s.tiles (coordKey x y z) with
  | some t =>
    have he : ensureTile env s x y z = (t, s) := by simp [ensureTile, h]
    rw [he]
    exact ⟨hc _ t h, hc, rfl, he⟩
  | none =>
    have he : ensureTile env s x y z =
        (generateTile env s.session_id x y z,
         { s with tiles := alistSet s.tiles (coordKey x y z)
                    (generateTile env s.session_id x y z) }) := by
      simp [ensureTile, h]
    rw [he]
    refine ⟨rfl, ?_, rfl, ?_⟩
    · intro k t hk
      by_cases hkk : coordKey x y z = k
      · subst hkk
        simp [alistSet, alistLookup] at hk
        subst hk
        rfl
      · simp only [alistSet, alistLookup, if_neg hkk] at hk
        exact hc k t hk
    · simp [ensureTile, alistLookup, alistSet]

theorem tile_generation_deterministic_witness :
    cacheConsistent env0 session0 ∧
    ((ensureTile env0 session0 0 0 0).1 = generateTile env0 session0.session_id 0 0 0 ∧
     cacheConsistent env0 (ensureTile env0 session0 0 0 0).2 ∧
     (ensureTile env0 session0 0 0 0).2.session_id = session0.session_id ∧
     ensureTile env0 (ensureTile env0 session0 0 0 0).2 0 0 0 =
       ensureTile env0 session0 0 0 0) := by
  have hc : cacheConsistent env0 session0 := by
    intro k t h
    simp [session0, alistLookup] at h
  exact ⟨hc, tile_generation_deterministic env0 session0 0 0 0 hc⟩

/-- C3: across any sequence of operations on any sessions, the event ids
assigned by `_append_event` are exactly the consecutive counter values,
strictly increasing in order of issuance and never reused (the log
truncation inside `appendEvent` never touches the counter): every run of
operations yields a strictly increasing id list, and each append issues
the current counter and bumps it by one. -/
theorem event_ids_strictly_increasing (env : Env) (w : World) (ops : List Op) :
    List.Pairwise (fun a b => a < b) (runOps env w ops).2 ∧
    ∀ next s ty pl, (appendEvent next s ty pl).1 = next ∧
      (appendEvent next s ty pl).2.1 = next + 1 :=
  ⟨runOps_pairwise env w ops, fun _ _ _ _ => ⟨rfl, rfl⟩⟩

/-- C5: every generated tile has at least one exit, whatever the hash and
PRNG produce: the per-direction draws are repaired by forcing one cardinal
direction in when all four exclude, and every exit is one of the four
cardinal directions. -/
theorem generated_tile_has_exit (env : Env) (sessionId : String) (x y z : Int) :
    0 < (generateTile env sessionId x y z).tile.exits.length ∧
    (generateTile env sessionId x y z).tile.exits.all
      (fun dd => decide (dd ∈ (["north", "east", "south", "west"] : List String))) = true := by
  have hx : ∃ r, (generateTile env sessionId x y z).tile.exits = (genExits r).1 := ⟨_, rfl⟩
  obtain ⟨r, hr⟩ := hx
  rw [hr]
  refine ⟨genExits_length_pos r, ?_⟩
  rw [List.all_eq_true]
  intro dd hdd
  exact decide_eq_true (genExits_subset r dd hdd)

/-- C6: a direction token that is not a recognized absolute direction,
single-letter alias or heading-relative token makes `move` fail with the
InvalidArgument message, returning the world unchanged (position, heading,
turn counter, tile cache, event log and journal of every session
included), because direction validation precedes every mutation. -/
theorem move_unknown_direction_rejected (env : Env) (w : World) (direction : String)
    (sidArg : Option String) (sid : String) (s : Session)
    (hres : resolveSession w sidArg = some (sid, s))
    (hrec : recognizedDirectionToken direction = false) :
    move env w direction sidArg = (w, Except.error unknownDirectionMsg) := by
  have hn := normalizeDirection_unrecognized direction s.heading hrec
  simp [move, hres, hn]

theorem move_unknown_direction_rejected_witness :
    resolveSession world0 (some "s_test") = some ("s_test", session0) ∧
    recognizedDirectionToken "around" = false ∧
    move env0 world0 "around" (some "s_test") = (world0, Except.error unknownDirectionMsg) :=
  ⟨rfl, by decide,
   move_unknown_direction_rejected env0 world0 "around" (some "s_test") "s_test" session0
     rfl (by decide)⟩

/-- C4: moving in any cardinal or vertical direction and then in its
opposite returns the session position to its prior value while the turn
counter increases by exactly 2. -/
theorem move_roundtrip (env : Env) (w : World) (sid : String) (s : Session)
    (d dOpp : String)
    (hpair : (d, dOpp) ∈ ([("north", "south"), ("south", "north"), ("east", "west"),
      ("west", "east"), ("up", "down"), ("down", "up")] : List (String × String)))
    (hsid : sid ≠ "") (hs : alistLookup w.sessions sid = some s) :
    ∃ w1 p1 w2 p2 s2,
      move env w d (some sid) = (w1, Except.ok p1) ∧
      move env w1 dOpp (some sid) = (w2, Except.ok p2) ∧
      alistLookup w2.sessions sid = some s2 ∧
      s2.position = s.position ∧ s2.turn = s.turn + 2 := by
  simp only [List.mem_cons, List.not_mem_nil, or_false, Prod.mk.injEq] at hpair
  rcases hpair with ⟨rfl, rfl⟩ | ⟨rfl, rfl⟩ | ⟨rfl, rfl⟩ | ⟨rfl, rfl⟩ | ⟨rfl, rfl⟩ | ⟨rfl, rfl⟩
  · exact move_roundtrip_aux env w sid s _ _ hsid hs
      (fun hd => ⟨_, normD_north hd⟩) (fun hd => ⟨_, normD_south hd⟩)
      (by decide) (by decide) (by decide)
  · exact move_roundtrip_aux env w sid s _ _ hsid hs
      (fun hd => ⟨_, normD_south hd⟩) (fun hd => ⟨_, normD_north hd⟩)
      (by decide) (by decide) (by decide)
  · exact move_roundtrip_aux env w sid s _ _ hsid hs
      (fun hd => ⟨_, normD_east hd⟩) (fun hd => ⟨_, normD_west hd⟩)
      (by decide) (by decide) (by decide)
  · exact move_roundtrip_aux env w sid s _ _ hsid hs
      (fun hd => ⟨_, normD_west hd⟩) (fun hd => ⟨_, normD_east hd⟩)
      (by decide) (by decide) (by decide)
  · exact move_roundtrip_aux env w sid s _ _ hsid hs
      (fun hd => ⟨_, normD_up hd⟩) (fun hd => ⟨_, normD_down hd⟩)
      (by decide) (by decide) (by decide)
  · exact move_roundtrip_aux env w sid s _ _ hsid hs
      (fun hd => ⟨_, normD_down hd⟩) (fun hd => ⟨_, normD_up hd⟩)
      (by decide) (by decide) (by decide)

theorem move_roundtrip_witness :
    ((("north", "south") ∈ ([("north", "south"), ("south", "north"), ("east", "west"),
      ("west", "east"), ("up", "down"), ("down", "up")] : List (String × String))) ∧
     ("s_test" : String) ≠ "" ∧ alistLookup world0.sessions "s_test" = some session0) ∧
    (∃ w1 p1 w2 p2 s2,
      move env0 world0 "north" (some "s_test") = (w1, Except.ok p1) ∧
      move env0 w1 "south" (some "s_test") = (w2, Except.ok p2) ∧
      alistLookup w2.sessions "s_test" = some s2 ∧
      s2.position = session0.position ∧ s2.turn = session0.turn + 2) :=
  ⟨⟨by decide, by decide, rfl⟩,
   move_roundtrip env0 world0 "s_test" session0 "north" "south" (by decide) (by decide) rfl⟩

/-- C7: the journal is bounded with oldest-first eviction.  The shared
append-then-evict step keeps the journal at no more than
`JOURNAL_MAX_ENTRIES` entries and always yields a suffix of the appended
list (so only the oldest entries are dropped); `_rollup_journal` changes
the journal exactly by that step; and after a successful `log_narrative`
the addressed session journal is either unchanged or the result of that
step on the prior journal. -/
theorem journal_bounded (env : Env) (w : World) (text : String) (eventId : Int)
    (sidArg : Option String) (sid : String) (s0 : Session) (w1 : World) (r : Nat)
    (hres : resolveSession w sidArg = some (sid, s0))
    (hok : logNarrative w text eventId sidArg = (w1, Except.ok r)) :
    (∀ j e, (journalAppend j e).length ≤ JOURNAL_MAX_ENTRIES ∧
      (journalAppend j e).IsSuffix (j ++ [e])) ∧
    (∀ s : Session, ∃ tl line, rollupJournal env s =
      { s with tiles := tl, journal := journalAppend s.journal line }) ∧
    (∃ s1, alistLookup w1.sessions sid = some s1 ∧
      (s1.journal = s0.journal ∨
       ∃ line, s1.journal = journalAppend s0.journal line)) := by
  refine ⟨fun j e => ⟨journalAppend_length_le j e, journalAppend_suffix j e⟩,
    fun s => rollupJournal_spec env s, ?_⟩
  simp only [logNarrative, hres] at hok
  split at hok
  · exact absurd hok (by simp)
  · split at hok
    · exact absurd hok (by simp)
    · have hw := congrArg Prod.fst hok
      simp only at hw
      subst hw
      refine ⟨_, alistLookup_set_self _ _ _, ?_⟩
      split
      · exact Or.inr ⟨_, rfl⟩
      · exact Or.inl rfl

theorem journal_bounded_witness :
    resolveSession world0 (some "s_test") = some ("s_test", session0) ∧
    logNarrative world0 "hello" 1 (some "s_test") =
      ((logNarrative world0 "hello" 1 (some "s_test")).1, Except.ok 1) ∧
    ((∀ j e, (journalAppend j e).length ≤ JOURNAL_MAX_ENTRIES ∧
      (journalAppend j e).IsSuffix (j ++ [e])) ∧
     (∀ s : Session, ∃ tl line, rollupJournal env0 s =
      { s with tiles := tl, journal := journalAppend s.journal line }) ∧
     (∃ s1, alistLookup (logNarrative world0 "hello" 1 (some "s_test")).1.sessions
        "s_test" = some s1 ∧
      (s1.journal = session0.journal ∨
       ∃ line, s1.journal = journalAppend session0.journal line))) :=
  ⟨rfl, rfl,
   journal_bounded env0 world0 "hello" 1 (some "s_test") "s_test" session0 _ 1 rfl rfl⟩

/-- C9: `look` returns the public snapshot (turn, position, tile content,
salient facts, exits, heading, session id, narrative-length cap) of the
addressed session without changing its position, turn counter or heading;
the global counter and active pointer are untouched (only the tile cache
may grow). -/
theorem look_preserves_state (env : Env) (w : World) (sidArg : Option String)
    (sid : String) (s : Session)
    (hres : resolveSession w sidArg = some (sid, s)) :
    ∃ p s1,
      look env w sidArg = ({ w with sessions := alistSet w.sessions sid s1 }, Except.ok p) ∧
      s1.position = s.position ∧ s1.turn = s.turn ∧ s1.heading = s.heading ∧
      s1.session_id = s.session_id ∧ s1.journal = s.journal ∧ s1.events = s.events ∧
      p.turn = s.turn ∧ p.position = s.position ∧ p.heading = s.heading ∧
      p.session_id = s.session_id ∧ p.max_narrative_words = s.max_narrative_words ∧
      p.tile = (ensureTile env s s.position.x s.position.y s.position.z).1.tile ∧
      p.salient_facts =
        (ensureTile env s s.position.x s.position.y s.position.z).1.salient_facts ∧
      p.exits = (ensureTile env s s.position.x s.position.y s.position.z).1.tile.exits ∧
      (look env w sidArg).1.nextEventId = w.nextEventId ∧
      (look env w sidArg).1.active = w.active := by
  simp only [look, hres]
  exact ⟨_, _, rfl, by simp, by simp, by simp, by simp, by simp, by simp, by simp, by simp,
    by simp, by simp, by simp, publicTilePayload_fst_tile env s,
    publicTilePayload_fst_facts env s, publicTilePayload_fst_exits env s,
    by trivial, by trivial⟩

theorem look_preserves_state_witness :
    resolveSession world0 (some "s_test") = some ("s_test", session0) ∧
    (∃ p s1,
      look env0 world0 (some "s_test") =
        ({ world0 with sessions := alistSet world0.sessions "s_test" s1 }, Except.ok p) ∧
      s1.position = session0.position ∧ s1.turn = session0.turn ∧
      s1.heading = session0.heading ∧ s1.session_id = session0.session_id ∧
      s1.journal = session0.journal ∧ s1.events = session0.events ∧
      p.turn = session0.turn ∧ p.position = session0.position ∧
      p.heading = session0.heading ∧ p.session_id = session0.session_id ∧
      p.max_narrative_words = session0.max_narrative_words ∧
      p.tile = (ensureTile env0 session0 session0.position.x session0.position.y
        session0.position.z).1.tile ∧
      p.salient_facts = (ensureTile env0 session0 session0.position.x session0.position.y
        session0.position.z).1.salient_facts ∧
      p.exits = (ensureTile env0 session0 session0.position.x session0.position.y
        session0.position.z).1.tile.exits ∧
      (look env0 world0 (some "s_test")).1.nextEventId = world0.nextEventId ∧
      (look env0 world0 (some "s_test")).1.active = world0.active) :=
  ⟨rfl, look_preserves_state env0 world0 (some "s_test") "s_test" session0 rfl⟩

theorem resolveSession_none_eq (w : World) (sid : String) (hact : w.active = some sid)
    (hsid : sid ≠ "") : resolveSession w none = resolveSession w (some sid) := by
  simp [resolveSession, hact, hsid]

/-- C10: `start_session` installs the created session as the process-wide
active session: the returned world points at the fresh identity, the
registry holds the created session under it, and every operation that
omits the session id (`move`, `look`, `log_narrative`, `journal`,
`spawn_npc`, `get_npc`) behaves identically to the same operation
addressed to the fresh identity explicitly. -/
theorem start_session_sets_active (env : Env) (w : World) (freshSid : String)
    (theme tone : Option String) (maxWords : Nat) (hsid : freshSid ≠ "") :
    ∃ w1 p s1,
      startSession env w freshSid theme tone maxWords = (w1, p) ∧
      w1.active = some freshSid ∧
      alistLookup w1.sessions freshSid = some s1 ∧
      s1.session_id = freshSid ∧
      p.session_id = freshSid ∧
      resolveSession w1 none = some (freshSid, s1) ∧
      (∀ dd, move env w1 dd none = move env w1 dd (some freshSid)) ∧
      (look env w1 none = look env w1 (some freshSid)) ∧
      (∀ text eid, logNarrative w1 text eid none = logNarrative w1 text eid (some freshSid)) ∧
      (journalOp w1 none = journalOp w1 (some freshSid)) ∧
      (∀ n k tv ua ub, spawnNpc env w1 n k none tv ua ub =
        spawnNpc env w1 n k (some freshSid) tv ua ub) ∧
      (∀ nid, getNpc w1 nid none = getNpc w1 nid (some freshSid)) := by
  refine ⟨_, _, _, rfl, rfl, alistLookup_set_self _ _ _, by simp [startSession], ?_, ?_,
    ?_, ?_, ?_, ?_, ?_, ?_⟩
  · simp [startSession]
  · simp [resolveSession, hsid, alistLookup, alistSet, startSession]
  · intro dd
    unfold move
    rw [resolveSession_none_eq _ freshSid rfl hsid]
  · unfold look
    rw [resolveSession_none_eq _ freshSid rfl hsid]
  · intro text eid
    unfold logNarrative
    rw [resolveSession_none_eq _ freshSid rfl hsid]
  · unfold journalOp
    rw [resolveSession_none_eq _ freshSid rfl hsid]
  · intro n k tv ua ub
    unfold spawnNpc
    rw [resolveSession_none_eq _ freshSid rfl hsid]
  · intro nid
    unfold getNpc
    rw [resolveSession_none_eq _ freshSid rfl hsid]

theorem start_session_sets_active_witness :
    ("s_new" : String) ≠ "" ∧
    (∃ w1 p s1,
      startSession env0 world0 "s_new" none none 80 = (w1, p) ∧
      w1.active = some "s_new" ∧
      alistLookup w1.sessions "s_new" = some s1 ∧
      s1.session_id = "s_new" ∧
      p.session_id = "s_new" ∧
      resolveSession w1 none = some ("s_new", s1) ∧
      (∀ dd, move env0 w1 dd none = move env0 w1 dd (some "s_new")) ∧
      (look env0 w1 none = look env0 w1 (some "s_new")) ∧
      (∀ text eid, logNarrative w1 text eid none = logNarrative w1 text eid (some "s_new")) ∧
      (journalOp w1 none = journalOp w1 (some "s_new")) ∧
      (∀ n k tv ua ub, spawnNpc env0 w1 n k none tv ua ub =
        spawnNpc env0 w1 n k (some "s_new") tv ua ub) ∧
      (∀ nid, getNpc w1 nid none = getNpc w1 nid (some "s_new"))) :=
  ⟨by decide, start_session_sets_active env0 world0 "s_new" none none 80 (by decide)⟩

/-- C2 (combat engine modelled from the spec, the `attack` implementation
being absent from the source tree): for an attack resolved while combat is
Active against the first still-alive enemy, whose armor class lies in the
spawn range [10, 15], a roll exactly equal to the armor class hits for the
single damage total, a roll one below misses, a natural 20 hits for the
two damage totals summed regardless of armor class, and a natural 1
misses regardless of armor class. -/
theorem attack_hit_rules (cs : CombatState) (target : Combatant) (roll dmg1 dmg2 : Nat)
    (hactive : cs.active = true)
    (htarget : cs.enemies.find? (fun e => decide (0 < e.hp)) = some target)
    (hac1 : 10 ≤ target.armor_class) (hac2 : target.armor_class ≤ 15) :
    (roll = target.armor_class →
      ∃ cs1, attack cs roll dmg1 dmg2 = Except.ok (cs1, AttackOutcome.hit dmg1 false)) ∧
    (roll = target.armor_class - 1 →
      ∃ cs1, attack cs roll dmg1 dmg2 = Except.ok (cs1, AttackOutcome.miss)) ∧
    (roll = 20 →
      ∃ cs1, attack cs roll dmg1 dmg2 = Except.ok (cs1, AttackOutcome.hit (dmg1 + dmg2) true)) ∧
    (roll = 1 →
      ∃ cs1, attack cs roll dmg1 dmg2 = Except.ok (cs1, AttackOutcome.miss)) := by
  have h20 : target.armor_class ≠ 20 := by omega
  have h1' : target.armor_class ≠ 1 := by omega
  refine ⟨?_, ?_, ?_, ?_⟩
  · intro hr
    subst hr
    simp only [attack, hactive, htarget, resolveHit, if_neg h20, if_neg h1',
      if_pos (le_refl target.armor_class), Bool.true_eq_false, if_false]
    exact ⟨_, rfl⟩
  · intro hr
    subst hr
    have hne20 : target.armor_class - 1 ≠ 20 := by omega
    have hne1 : target.armor_class - 1 ≠ 1 := by omega
    have hlt : ¬(target.armor_class ≤ target.armor_class - 1) := by omega
    simp only [attack, hactive, htarget, resolveHit, if_neg hne20, if_neg hne1,
      if_neg hlt, Bool.true_eq_false, if_false]
    exact ⟨_, rfl⟩
  · intro hr
    subst hr
    simp only [attack, hactive, htarget, resolveHit, if_pos rfl,
      Bool.true_eq_false, if_false]
    exact ⟨_, rfl⟩
  · intro hr
    subst hr
    have hx : (1 : Nat) ≠ 20 := by omega
    simp only [attack, hactive, htarget, resolveHit, if_neg hx, if_pos rfl,
      Bool.true_eq_false, if_false]
    exact ⟨_, rfl⟩

theorem attack_hit_rules_witness :
    combat0.active = true ∧
    combat0.enemies.find? (fun e => decide (0 < e.hp)) = some enemy0 ∧
    10 ≤ enemy0.armor_class ∧ enemy0.armor_class ≤ 15 ∧
    (∃ cs1, attack combat0 20 3 4 = Except.ok (cs1, AttackOutcome.hit (3 + 4) true)) :=
  ⟨rfl, rfl, by decide, by decide,
   (attack_hit_rules combat0 enemy0 20 3 4 rfl rfl (by decide) (by decide)).2.2.1 rfl⟩

/-- C8: every successful `roll_with_advantage` call (notation dM, or 1dM
through the NdM fallback, with a positive side count) returns the maximum
of its two die rolls, each lying in [1, M], and flags a critical success
exactly when M = 20 and the result is 20, a critical fail exactly when
M = 20 and the result is 1. -/
theorem roll_with_advantage_spec (rng : RNG) (nota : String) (res : AdvantageRollResult)
    (rng' : RNG) (h : rollWithAdvantage rng nota = Except.ok (res, rng')) :
    0 < res.sides ∧ res.rolls.length = 2 ∧
    res.result = max (res.rolls.getD 0 0) (res.rolls.getD 1 0) ∧
    (∀ v ∈ res.rolls, 1 ≤ v ∧ v ≤ res.sides) ∧
    (res.is_critical_success = true ↔ (res.sides = 20 ∧ res.result = 20)) ∧
    (res.is_critical_fail = true ↔ (res.sides = 20 ∧ res.result = 1)) := by
  obtain ⟨sides, hpos, heq⟩ := rollWithAdvantage_ok rng nota res rng' h
  have hres : res = (advantageRollOf rng sides).1 := by rw [← heq]
  subst hres
  exact advantageRollOf_spec rng sides hpos

theorem roll_with_advantage_spec_witness :
    rollWithAdvantage rngZero "d20" = Except.ok (advResFail, rngZero) ∧
    (0 < advResFail.sides ∧ advResFail.rolls.length = 2 ∧
     advResFail.result = max (advResFail.rolls.getD 0 0) (advResFail.rolls.getD 1 0) ∧
     (∀ v ∈ advResFail.rolls, 1 ≤ v ∧ v ≤ advResFail.sides) ∧
     (advResFail.is_critical_success = true ↔
       (advResFail.sides = 20 ∧ advResFail.result = 20)) ∧
     (advResFail.is_critical_fail = true ↔
       (advResFail.sides = 20 ∧ advResFail.result = 1))) :=
  ⟨rfl, roll_with_advantage_spec rngZero "d20" advResFail rngZero rfl⟩
